import Mathlib

/-!
Verification of the NVC conversation-stage classifier, stage sequencer,
completion gate and summary extractor of the `nvc` API module
(`backend/app/api/nvc/__init__.py`), as a shallow embedding in Lean 4.

Conversation messages are Lean `String`s; Python substring containment
(`kw in text`) is embedded as containment on the underlying character
lists, and Python `str.lower()` as an ASCII character-wise lowercase map.
-/

namespace NVC

/-- Python `str.lower()` on message text, embedded as the ASCII case
map `Char.toLower` applied to every character. -/
def lowerStr (s : String) : String :=
  String.mk (s.data.map Char.toLower)

/-- Containment of `needle` as a contiguous substring of `hay`, matching
the Python test `needle in hay` on strings (checked on the character lists:
at each suffix of `hay`, test whether `needle` is a prefix). -/
def charsContains (needle : List Char) : List Char → Bool
  | [] => needle.isEmpty
  | c :: rest => needle.isPrefixOf (c :: rest) || charsContains needle rest

/-- String-level substring test: `strContains hay needle` is the Python
test `needle in hay`. -/
def strContains (hay needle : String) : Bool :=
  charsContains needle.data hay.data

/-- Observation indicator keywords of `detect_current_nvc_step`. -/
def observation_words : List String :=
  ["noticed", "saw", "heard", "observed", "happened", "said", "did", "when", "during"]

/-- Feeling indicator keywords of `detect_current_nvc_step`. -/
def feeling_words : List String :=
  ["feel", "feeling", "felt", "frustrated", "angry", "sad", "excited", "worried", "grateful",
   "disappointed", "hurt", "confused", "overwhelmed", "peaceful", "hopeful"]

/-- Need indicator keywords of `detect_current_nvc_step`. -/
def need_words : List String :=
  ["need", "value", "important", "matter", "respect", "understanding", "connection",
   "safety", "autonomy", "recognition", "support", "honesty", "trust"]

/-- Request indicator keywords of `detect_current_nvc_step`. -/
def request_words : List String :=
  ["would you", "could you", "please", "willing", "appreciate", "request", "ask"]

/-- Keyword score of a (lowercased) message against a vocabulary:
`sum(1 for word in words if word in message_lower)`, i.e. the number of
vocabulary entries occurring in the text. -/
def countKw (words : List String) (message_lower : String) : Nat :=
  words.countP (fun w => strContains message_lower w)

/-- The Python expression `max(scores.items(), key=lambda x: x[1])[0]` on the scores
dict of `detect_current_nvc_step`: iterate the four entries in insertion
order (observation, feeling, need, request), keeping the first entry and
replacing it only on a strictly greater value, then project the label. -/
def pickMax (so sf sn sr : Nat) : String :=
  let b1 : String × Nat := if sf > so then ("feeling", sf) else ("observation", so)
  let b2 : String × Nat := if sn > b1.2 then ("need", sn) else b1
  let b3 : String × Nat := if sr > b2.2 then ("request", sr) else b2
  b3.1

/-- Embedding of `detect_current_nvc_step`: lowercase the message, score
the four vocabularies, return "starting" when all scores are zero and
otherwise the first label attaining the maximal score. -/
def detect_current_nvc_step (message : String) : String :=
  let ml := lowerStr message
  let so := countKw observation_words ml
  let sf := countKw feeling_words ml
  let sn := countKw need_words ml
  let sr := countKw request_words ml
  if Nat.max (Nat.max (Nat.max so sf) sn) sr = 0 then "starting"
  else pickMax so sf sn sr

/-- Classifier as worded by the specification and claim C4: score each of
the four stages and return the stage with the highest score, ties broken
by vocabulary declaration order, first seen wins (no special case for an
all-zero score vector). -/
def claimed_classifier (message : String) : String :=
  let ml := lowerStr message
  let so := countKw observation_words ml
  let sf := countKw feeling_words ml
  let sn := countKw need_words ml
  let sr := countKw request_words ml
  if so ≥ sf ∧ so ≥ sn ∧ so ≥ sr then "observation"
  else if sf ≥ sn ∧ sf ≥ sr then "feeling"
  else if sn ≥ sr then "need"
  else "request"

/-- The `step_sequence` list of `get_next_nvc_step`. -/
def step_sequence : List String := ["observation", "feeling", "need", "request"]

/-- Embedding of `get_next_nvc_step`: "starting" maps to "observation";
a stage in `step_sequence` advances by one position except "request",
which stays; anything else defaults to "request". -/
def get_next_nvc_step (current_step : String) : String :=
  if current_step = "starting" then "observation"
  else if step_sequence.contains current_step then
    let current_index := step_sequence.indexOf current_step
    if current_index < step_sequence.length - 1 then
      step_sequence.getD (current_index + 1) ""
    else "request"
  else "request"

/-- The explicit completion phrase list of `should_complete_conversation`,
with apostrophes written as unicode escapes. -/
def completion_phrases : List String :=
  ["show me the summary", "i\u0027m ready to complete", "can we finish",
   "give me the nvc summary", "i\u0027m done", "that\u0027s enough",
   "create my nvc statement", "show me my nvc framework",
   "no more to discuss", "nothing else", "i\u0027m satisfied",
   "i am complete", "i am done", "print the summary",
   "please print the summary", "generate the summary",
   "create the summary", "finish this", "wrap this up",
   "complete", "summary please", "give me my summary"]

/-- Observation evidence keywords of `should_complete_conversation`. -/
def sc_observation_words : List String := ["noticed", "saw", "heard", "observed"]

/-- Feeling evidence keywords of `should_complete_conversation`. -/
def sc_feeling_words : List String := ["feel", "feeling", "frustrated", "sad", "angry"]

/-- Need evidence keywords of `should_complete_conversation`. -/
def sc_need_words : List String := ["need", "value", "respect", "understanding"]

/-- Specific actionable request phrases of `should_complete_conversation`. -/
def specific_request_phrases : List String :=
  ["would you be willing", "could you please", "would you please",
   "i request", "i ask that", "could we", "will you"]

/-- Feeling words counted for the depth signal of `should_complete_conversation`. -/
def depth_feeling_words : List String :=
  ["feel", "feeling", "frustrated", "sad", "angry", "excited", "worried", "grateful"]

/-- Need words counted for the depth signal of `should_complete_conversation`. -/
def depth_need_words : List String :=
  ["need", "value", "respect", "understanding", "connection", "autonomy", "safety"]

/-- The Python expression joining the history with single spaces and
lowercasing it. -/
def all_messages (conversation_history : List String) : String :=
  lowerStr (String.intercalate " " conversation_history)

/-- Embedding of `should_complete_conversation`: an explicit completion
phrase in the (lowercased) last message completes immediately; otherwise
histories shorter than 10 messages never complete; otherwise completion
requires keyword evidence of all four steps over the joined lowercased
history, a specific actionable request phrase, and a depth signal of at
least two distinct feeling words and two distinct need words. -/
def should_complete_conversation (conversation_history : List String) : Bool :=
  let explicit :=
    match conversation_history.getLast? with
    | none => false
    | some last => completion_phrases.any (fun p => strContains (lowerStr last) p)
  if explicit then true
  else if conversation_history.length < 10 then false
  else
    let am := all_messages conversation_history
    let has_observation := sc_observation_words.any (fun w => strContains am w)
    let has_feeling := sc_feeling_words.any (fun w => strContains am w)
    let has_need := sc_need_words.any (fun w => strContains am w)
    let has_specific_request := specific_request_phrases.any (fun p => strContains am p)
    let feeling_count := depth_feeling_words.countP (fun w => strContains am w)
    let need_count := depth_need_words.countP (fun w => strContains am w)
    let has_depth := decide (2 ≤ feeling_count) && decide (2 ≤ need_count)
    has_observation && has_feeling && has_need && has_specific_request && has_depth

/-- Python `str.strip()`: drop whitespace from both ends of the string. -/
def stripStr (s : String) : String :=
  String.mk (((s.data.dropWhile Char.isWhitespace).reverse.dropWhile Char.isWhitespace).reverse)

/-- Valid step labels accepted from the external model by
`detect_nvc_step_with_ai`. -/
def valid_ai_steps : List String := ["observation", "feeling", "need", "request"]

/-- Embedding of `detect_nvc_step_with_ai`. The external LLM call is
modelled by `aiOutcome`: `none` when there is no client or the call
raises, `some raw` when it returns the text `raw`. The returned label is
stripped and lowercased (`stripStr`, `lowerStr`); an invalid label falls back to the keyword
classifier. -/
def detect_nvc_step_with_ai (aiOutcome : Option String) (message : String) : String :=
  match aiOutcome with
  | none => detect_current_nvc_step message
  | some raw =>
    let ai_step := lowerStr (stripStr raw)
    if valid_ai_steps.contains ai_step then ai_step
    else detect_current_nvc_step message

/-- Embedding of `ai_should_complete_conversation`. As above, `aiOutcome`
models the external call; histories shorter than 8 messages never reach
the model, and any output other than "true"/"false" falls back to
`should_complete_conversation`. -/
def ai_should_complete_conversation (aiOutcome : Option String)
    (conversation_history : List String) : Bool :=
  match aiOutcome with
  | none => should_complete_conversation conversation_history
  | some raw =>
    if conversation_history.length < 8 then
      should_complete_conversation conversation_history
    else
      let ai_result := lowerStr (stripStr raw)
      if ai_result = "true" then true
      else if ai_result = "false" then false
      else should_complete_conversation conversation_history

/-- User messages of a history: every other message starting from the
first, as in `extract_user_content_from_conversation`
(`range(0, len(conversation_history), 2)`). -/
def evenIndexed : List String → List String
  | [] => []
  | [x] => [x]
  | x :: _ :: rest => x :: evenIndexed rest

/-- The four message lists built by `extract_user_content_from_conversation`. -/
structure ExtractedContent where
  observations : List String
  feelings : List String
  needs : List String
  requests : List String
  deriving Repr, DecidableEq

/-- Embedding of `extract_user_content_from_conversation`. The function
filters user messages into the four category lists, but its `return`
dict contains the entry `"context": context` where `context` is an
undefined name, so every call raises `NameError` before returning; this
is modelled by returning `Except.error`. -/
def extract_user_content_from_conversation (conversation_history : List String) :
    Except String ExtractedContent :=
  let user_messages := evenIndexed conversation_history
  let observations := user_messages.filter (fun msg =>
    ["noticed", "saw", "heard", "didn\u0027t", "said", "did"].any
      (fun w => strContains (lowerStr msg) w))
  let feelings := user_messages.filter (fun msg =>
    ["feel", "feeling", "frustrated", "sad", "angry", "unheard", "unappreciated"].any
      (fun w => strContains (lowerStr msg) w))
  let needs := user_messages.filter (fun msg =>
    ["need", "want", "value", "respect", "recognition", "understanding"].any
      (fun w => strContains (lowerStr msg) w))
  let requests := user_messages.filter (fun msg =>
    ["would you", "could you", "please", "willing"].any
      (fun w => strContains (lowerStr msg) w))
  Except.error "NameError: name \u0027context\u0027 is not defined"

/-- Embedding of `validate_credentials`: the email is ignored and the
password is compared with the hard-coded string. -/
def validate_credentials (email password : String) : Bool :=
  password == "NVCRocks!"

/-- The authentication-relevant fields of `ConversationRequest`. -/
structure ConversationRequest where
  message : String
  email : String
  password : String
  deriving Repr, DecidableEq

/-- Embedding of `is_authenticated`. -/
def is_authenticated (request : ConversationRequest) : Bool :=
  validate_credentials request.email request.password

/-- Authentication gate of the `nvc_conversation` endpoint: the endpoint
raises `HTTPException(status_code=401)` exactly when `is_authenticated`
fails, before any other processing; `some 401` models the raised status. -/
def nvc_conversation_auth_gate (request : ConversationRequest) : Option Nat :=
  if !(is_authenticated request) then some 401 else none


/-- Nested-if characterization of `pickMax`. -/
theorem pickMax_eq (so sf sn sr : Nat) :
    pickMax so sf sn sr =
      if sf > so then
        (if sn > sf then (if sr > sn then "request" else "need")
         else (if sr > sf then "request" else "feeling"))
      else
        (if sn > so then (if sr > sn then "request" else "need")
         else (if sr > so then "request" else "observation")) := by
  unfold pickMax
  split_ifs <;> dsimp only <;> first | rfl | omega | (split_ifs <;> rfl)

/-- Helper: `pickMax` agrees with the first-stage-with-maximal-score rule
used by `claimed_classifier`. -/
theorem pickMax_eq_spec (so sf sn sr : Nat) :
    pickMax so sf sn sr =
      (if so ≥ sf ∧ so ≥ sn ∧ so ≥ sr then "observation"
       else if sf ≥ sn ∧ sf ≥ sr then "feeling"
       else if sn ≥ sr then "need"
       else "request") := by
  rw [pickMax_eq]
  split_ifs <;> first | rfl | omega

/-- Claim C4, counterexample: on the empty message every score is zero, the
classifier returns "starting", yet the stage of highest score with
first-seen tie-breaking would be "observation" - so the claim as stated
(argmax behaviour for every message) fails. -/
theorem c4_counterexample : detect_current_nvc_step "" ≠ claimed_classifier "" := by decide

/-- Claim C4 (amended): for every message containing at least one
vocabulary keyword, `detect_current_nvc_step` returns the stage with the
highest keyword score, ties broken by vocabulary declaration order with
first-seen-wins semantics (the behaviour worded by the spec as
`claimed_classifier`). -/
theorem c4_amended (m : String)
    (hpos : 0 < countKw observation_words (lowerStr m) + countKw feeling_words (lowerStr m)
        + countKw need_words (lowerStr m) + countKw request_words (lowerStr m)) :
    detect_current_nvc_step m = claimed_classifier m := by
  unfold detect_current_nvc_step claimed_classifier
  have hmax : ¬ (Nat.max (Nat.max (Nat.max (countKw observation_words (lowerStr m)) (countKw feeling_words (lowerStr m))) (countKw need_words (lowerStr m))) (countKw request_words (lowerStr m)) = 0) := by
    simp only [Nat.max_eq_zero_iff]
    omega
  simp only [hmax, if_false, pickMax_eq_spec]

/-- Witness for C4 at the concrete message "i feel sad". -/
theorem c4_witness :
    (0 < countKw observation_words (lowerStr "i feel sad") + countKw feeling_words (lowerStr "i feel sad")
        + countKw need_words (lowerStr "i feel sad") + countKw request_words (lowerStr "i feel sad")) ∧
    detect_current_nvc_step "i feel sad" = claimed_classifier "i feel sad" :=
  ⟨by decide, c4_amended "i feel sad" (by decide)⟩

/-- Claim C5: the sequencer satisfies next(starting)=observation,
next(observation)=feeling, next(feeling)=need, next(need)=request,
next(request)=request, any other input maps to request, four
applications from "starting" reach "request" and a fifth stays there. -/
theorem c5_sequencer_table :
    get_next_nvc_step "starting" = "observation" ∧
    get_next_nvc_step "observation" = "feeling" ∧
    get_next_nvc_step "feeling" = "need" ∧
    get_next_nvc_step "need" = "request" ∧
    get_next_nvc_step "request" = "request" ∧
    (∀ s : String, s ∉ ("starting" :: step_sequence) → get_next_nvc_step s = "request") ∧
    get_next_nvc_step (get_next_nvc_step (get_next_nvc_step (get_next_nvc_step "starting"))) = "request" ∧
    get_next_nvc_step (get_next_nvc_step (get_next_nvc_step (get_next_nvc_step
      (get_next_nvc_step "starting")))) = "request" := by
  refine ⟨by decide, by decide, by decide, by decide, by decide, ?_, by decide, by decide⟩
  intro s hs
  have h1 : ¬ (s = "starting") := fun h => hs (by simp [h])
  have h2 : ¬ (step_sequence.contains s = true) := fun h =>
    hs (List.mem_cons_of_mem _ (List.elem_iff.mp h))
  simp only [get_next_nvc_step, h1, h2, if_false, Bool.false_eq_true]

/-- Witness for C5 at the concrete out-of-progression input "complete". -/
theorem c5_witness :
    ("complete" ∉ ("starting" :: step_sequence)) ∧ get_next_nvc_step "complete" = "request" :=
  ⟨by decide, c5_sequencer_table.2.2.2.2.2.1 "complete" (by decide)⟩

/-- Claim C9: for every message the classifier returns one of
starting/observation/feeling/need/request and never "complete", and for
every input the sequencer returns one of
observation/feeling/need/request and never "starting" or "complete". -/
theorem c9_output_ranges (m s : String) :
    detect_current_nvc_step m ∈ (["starting", "observation", "feeling", "need", "request"] : List String) ∧
    detect_current_nvc_step m ≠ "complete" ∧
    get_next_nvc_step s ∈ (["observation", "feeling", "need", "request"] : List String) ∧
    get_next_nvc_step s ≠ "starting" ∧
    get_next_nvc_step s ≠ "complete" := by
  have hd : detect_current_nvc_step m ∈ (["starting", "observation", "feeling", "need", "request"] : List String) := by
    unfold detect_current_nvc_step
    dsimp only
    split
    · simp
    · rw [pickMax_eq]
      split_ifs <;> simp
  have hn : get_next_nvc_step s ∈ (["observation", "feeling", "need", "request"] : List String) := by
    unfold get_next_nvc_step
    dsimp only
    split
    · simp
    · split
      · rename_i hmem
        have : s ∈ step_sequence := List.elem_iff.mp hmem
        simp only [step_sequence, List.mem_cons, List.mem_singleton, List.not_mem_nil, or_false] at this
        rcases this with h | h | h | h <;> subst h <;> decide
      · simp
  refine ⟨hd, ?_, hn, ?_, ?_⟩
  · intro h; rw [h] at hd; revert hd; decide
  · intro h; rw [h] at hn; revert hn; decide
  · intro h; rw [h] at hn; revert hn; decide

/-- Helper: a vocabulary none of whose keywords occurs scores zero. -/
theorem countKw_eq_zero (words : List String) (ml : String)
    (h : ∀ w ∈ words, strContains ml w = false) : countKw words ml = 0 :=
  List.countP_eq_zero.mpr (fun w hw => by simp [h w hw])

/-- Claim C7: every message containing zero keywords from all four
vocabularies - the empty string included - classifies as "starting"
(and the classifier is a total function, so no exception arises). -/
theorem c7_no_keywords_starting :
    (∀ m : String,
      (∀ w ∈ observation_words ++ feeling_words ++ need_words ++ request_words,
        strContains (lowerStr m) w = false) →
      detect_current_nvc_step m = "starting") ∧
    detect_current_nvc_step "" = "starting" := by
  constructor
  · intro m hm
    have ho : countKw observation_words (lowerStr m) = 0 :=
      countKw_eq_zero _ _ (fun w hw => hm w (by simp [hw]))
    have hf : countKw feeling_words (lowerStr m) = 0 :=
      countKw_eq_zero _ _ (fun w hw => hm w (by simp [hw]))
    have hn : countKw need_words (lowerStr m) = 0 :=
      countKw_eq_zero _ _ (fun w hw => hm w (by simp [hw]))
    have hr : countKw request_words (lowerStr m) = 0 :=
      countKw_eq_zero _ _ (fun w hw => hm w (by simp [hw]))
    unfold detect_current_nvc_step
    dsimp only
    rw [ho, hf, hn, hr]
    rfl
  · rfl

/-- Witness for C7 at the concrete keyword-free message "xyz". -/
theorem c7_witness :
    (∀ w ∈ observation_words ++ feeling_words ++ need_words ++ request_words,
      strContains (lowerStr "xyz") w = false) ∧
    detect_current_nvc_step "xyz" = "starting" :=
  ⟨by decide, c7_no_keywords_starting.1 "xyz" (by decide)⟩

/-- Claim C8: every message containing at least one feeling keyword and
no keyword of the observation, need or request vocabulary classifies as
"feeling". -/
theorem c8_only_feeling_keywords (m : String)
    (hf : ∃ w ∈ feeling_words, strContains (lowerStr m) w = true)
    (ho : ∀ w ∈ observation_words, strContains (lowerStr m) w = false)
    (hn : ∀ w ∈ need_words, strContains (lowerStr m) w = false)
    (hr : ∀ w ∈ request_words, strContains (lowerStr m) w = false) :
    detect_current_nvc_step m = "feeling" := by
  have ho0 : countKw observation_words (lowerStr m) = 0 := countKw_eq_zero _ _ ho
  have hn0 : countKw need_words (lowerStr m) = 0 := countKw_eq_zero _ _ hn
  have hr0 : countKw request_words (lowerStr m) = 0 := countKw_eq_zero _ _ hr
  have hfpos : 0 < countKw feeling_words (lowerStr m) := by
    refine List.countP_pos_iff.mpr ?_
    obtain ⟨w, hw, hc⟩ := hf
    exact ⟨w, hw, by simp [hc]⟩
  unfold detect_current_nvc_step
  dsimp only
  rw [ho0, hn0, hr0, pickMax_eq]
  have hne : ¬ ((Nat.max (Nat.max (Nat.max 0 (countKw feeling_words (lowerStr m))) 0) 0) = 0) := by
    simp only [Nat.max_eq_zero_iff]
    omega
  rw [if_neg hne]
  split_ifs <;> first | rfl | omega

/-- Witness for C8 at the concrete message "frustrated". -/
theorem c8_witness :
    (∃ w ∈ feeling_words, strContains (lowerStr "frustrated") w = true) ∧
    detect_current_nvc_step "frustrated" = "feeling" :=
  ⟨by decide, c8_only_feeling_keywords "frustrated" (by decide) (by decide) (by decide) (by decide)⟩

/-- Claim C10: credential validation ignores the email (any two emails
validate identically), succeeds exactly on the hard-coded password, and
the conversation endpoint rejects with HTTP 401 exactly when the
password differs from it. -/
theorem c10_auth_ignores_email (e1 e2 p m1 : String) :
    validate_credentials e1 p = validate_credentials e2 p ∧
    (validate_credentials e1 p = true ↔ p = "NVCRocks!") ∧
    (nvc_conversation_auth_gate ⟨m1, e1, p⟩ = some 401 ↔ p ≠ "NVCRocks!") := by
  refine ⟨rfl, by simp [validate_credentials], ?_⟩
  by_cases hp : p = "NVCRocks!"
  · simp [nvc_conversation_auth_gate, is_authenticated, validate_credentials, hp]
  · simp [nvc_conversation_auth_gate, is_authenticated, validate_credentials, hp]

/-- Claim C3 (code bug): for every conversation history, summary
extraction raises NameError - the returned dict of
`extract_user_content_from_conversation` references the undefined name
`context` - so no call ever yields the four category values or the
fallback phrases the claim describes. -/
theorem c3_extraction_raises (h : List String) :
    extract_user_content_from_conversation h =
      Except.error "NameError: name \u0027context\u0027 is not defined" := rfl

/-- Claim C6: whenever the external step-detection call fails (no client
or exception, modelled by `none`) or returns a label outside the four
valid stages, `detect_nvc_step_with_ai` returns exactly the keyword
classifier result, and `ai_should_complete_conversation` likewise falls
back to `should_complete_conversation` on failure or non-true/false
output; no failure is surfaced as an error. The two external calls are
modelled by independent outcomes `o1` and `o2`, each constrained only by
the condition its own fallback is claimed for. -/
theorem c6_ai_fallback (m : String) (h : List String) (o1 o2 : Option String)
    (hstep : ∀ s, o1 = some s → valid_ai_steps.contains (lowerStr (stripStr s)) = false)
    (hbool : ∀ s, o2 = some s →
      lowerStr (stripStr s) ≠ "true" ∧ lowerStr (stripStr s) ≠ "false") :
    detect_nvc_step_with_ai o1 m = detect_current_nvc_step m ∧
    ai_should_complete_conversation o2 h = should_complete_conversation h := by
  constructor
  · cases o1 with
    | none => rfl
    | some raw =>
      have h1 := hstep raw rfl
      simp only [detect_nvc_step_with_ai, h1, Bool.false_eq_true, if_false]
  · cases o2 with
    | none => rfl
    | some raw =>
      obtain ⟨h2, h3⟩ := hbool raw rfl
      simp only [ai_should_complete_conversation]
      split
      · rfl
      · simp only [if_neg h2, if_neg h3]

/-- Witness for C6: the output "true" is an invalid step label, so step
detection falls back on it, and the output "observation" is not a
boolean answer, so the completion check falls back on it, also past the
8-message threshold where the model answer would be consulted. -/
theorem c6_witness :
    detect_nvc_step_with_ai (some "true") "i feel sad" = detect_current_nvc_step "i feel sad" ∧
    ai_should_complete_conversation (some "observation")
        ["a", "b", "c", "d", "e", "f", "g", "h"] =
      should_complete_conversation ["a", "b", "c", "d", "e", "f", "g", "h"] :=
  c6_ai_fallback "i feel sad" ["a", "b", "c", "d", "e", "f", "g", "h"]
    (some "true") (some "observation")
    (by intro s hs; cases hs; decide)
    (by intro s hs; cases hs; exact ⟨by decide, by decide⟩)

/-- Claim C1: for every history of length at least 10 whose last message
contains no explicit completion phrase, `should_complete_conversation`
returns true exactly when the lowercased space-joined history contains
at least one observation keyword, one feeling keyword, one need keyword
and one specific actionable request phrase, and additionally at least
two distinct depth feeling words and two distinct depth need words. -/
theorem c1_long_history_completion (h : List String)
    (hlen : 10 <= h.length)
    (hlast : ∀ p ∈ completion_phrases, strContains (lowerStr (h.getLastD "")) p = false) :
    (should_complete_conversation h = true ↔
      ((∃ w ∈ sc_observation_words, strContains (all_messages h) w = true) ∧
       (∃ w ∈ sc_feeling_words, strContains (all_messages h) w = true) ∧
       (∃ w ∈ sc_need_words, strContains (all_messages h) w = true) ∧
       (∃ p ∈ specific_request_phrases, strContains (all_messages h) p = true) ∧
       2 <= depth_feeling_words.countP (fun w => strContains (all_messages h) w) ∧
       2 <= depth_need_words.countP (fun w => strContains (all_messages h) w))) := by
  have hexp : (match h.getLast? with
      | none => false
      | some last => completion_phrases.any (fun p => strContains (lowerStr last) p)) = false := by
    cases e : h.getLast? with
    | none => rfl
    | some last =>
      have hl : h.getLastD "" = last := by
        rw [List.getLastD_eq_getLast?, e]
        rfl
      simp only [List.any_eq_false]
      intro p hp
      rw [← hl, Bool.not_eq_true]
      exact hlast p hp
  unfold should_complete_conversation
  dsimp only
  rw [hexp]
  rw [if_neg (by simp), if_neg (by omega)]
  simp only [Bool.and_eq_true, List.any_eq_true, decide_eq_true_iff]
  tauto

/-- Witness for C1 on a concrete 10-message history. -/
theorem c1_witness :
    (10 <= (["i noticed something", "ok", "i feel sad and frustrated", "ok",
             "i need respect", "ok", "would you be willing to help", "ok",
             "i value understanding", "thanks"] : List String).length) ∧
    should_complete_conversation
      ["i noticed something", "ok", "i feel sad and frustrated", "ok",
       "i need respect", "ok", "would you be willing to help", "ok",
       "i value understanding", "thanks"] = true := by
  refine ⟨by decide, ?_⟩
  have := c1_long_history_completion
    ["i noticed something", "ok", "i feel sad and frustrated", "ok",
     "i need respect", "ok", "would you be willing to help", "ok",
     "i value understanding", "thanks"] (by decide) (by decide)
  exact this.mpr (by decide)

/-- Claim C2: for every history shorter than 10 messages the completion
gate returns true iff the history is non-empty and its lowercased last
message contains an explicit completion phrase; and a last message of
exactly "I\u0027m done" yields true regardless of prior history length. -/
theorem c2_short_history (h hpre : List String) (hlen : h.length < 10) :
    (should_complete_conversation h = true ↔
      ∃ last, h.getLast? = some last ∧
        ∃ p ∈ completion_phrases, strContains (lowerStr last) p = true) ∧
    should_complete_conversation (hpre ++ ["I\u0027m done"]) = true := by
  constructor
  · unfold should_complete_conversation
    dsimp only
    cases e : h.getLast? with
    | none =>
      rw [if_neg (by simp), if_pos (by omega)]
      simp
    | some last =>
      by_cases hany : completion_phrases.any (fun p => strContains (lowerStr last) p) = true
      · rw [if_pos hany]
        simp only [true_iff]
        exact ⟨last, rfl, by simpa [List.any_eq_true] using hany⟩
      · rw [if_neg (by simpa using hany), if_pos (by omega)]
        constructor
        · intro hf
          exact absurd hf (by simp)
        · rintro ⟨l2, hl2, p, hp, hc⟩
          injection hl2 with hl2e
          subst hl2e
          exact absurd (List.any_eq_true.mpr ⟨p, hp, hc⟩) hany
  · unfold should_complete_conversation
    dsimp only
    rw [List.getLast?_concat]
    rw [if_pos (by decide)]

/-- Witness for C2: a one-message keyword-rich history does not complete,
while "I\u0027m done" as last message does. -/
theorem c2_witness :
    ((["i noticed and i feel sad since i need respect so would you be willing"] : List String).length < 10) ∧
    (should_complete_conversation
        ["i noticed and i feel sad since i need respect so would you be willing"] = false) ∧
    should_complete_conversation ["hello", "I\u0027m done"] = true := by
  have hthm := c2_short_history
    ["i noticed and i feel sad since i need respect so would you be willing"] ["hello"] (by decide)
  refine ⟨by decide, ?_, hthm.2⟩
  cases hb : should_complete_conversation
      ["i noticed and i feel sad since i need respect so would you be willing"] with
  | false => rfl
  | true =>
    obtain ⟨last, hl, p, hp, hc⟩ := hthm.1.mp hb
    have hlast : last = "i noticed and i feel sad since i need respect so would you be willing" := by
      have he : (["i noticed and i feel sad since i need respect so would you be willing"] :
          List String).getLast? =
          some "i noticed and i feel sad since i need respect so would you be willing" := rfl
      rw [he] at hl
      injection hl with hh
      exact hh.symm
    subst hlast
    have hall : ∀ q ∈ completion_phrases,
        strContains (lowerStr
          "i noticed and i feel sad since i need respect so would you be willing") q = false := by
      decide
    rw [hall p hp] at hc
    exact Bool.noConfusion hc

end NVC
